import Mathlib

/-!
Verification of the iLauncher icon-generation scripts.

The repository consists of four Python scripts that rasterize an application
icon and serialize it into the ICO and ICNS container formats
(`scripts/generate_icns.py`, `scripts/generate_icon.py`,
`scripts/generate_professional_icon.py`, `scripts/convert_svg_to_icons.py`).

This file gives a shallow embedding of the byte-level encoders and of the
control flow of the generation pipeline, and proves the specification claims
about them.  Bytes are modelled as natural numbers below 256 in a `List Nat`;
`struct.pack` with the big-endian unsigned 32-bit format is modelled by a
function into `Option (List Nat)` that fails (like `struct.error`) on
out-of-range values.  Library calls that are external to the repository
(Pillow's `Image.resize`, PNG encoding/decoding, the drawing primitives and
Pillow's internal ICO serializer) are modelled either by explicit model
functions or by abstract function parameters constrained only by their
documented contracts; every such modelling choice is recorded in the doc
comment of the corresponding definition.
-/

/-- An in-memory raster image: width, height and an RGBA pixel function.
Models a PIL `Image` object at the level of detail the claims need
(dimensions and pixel content; the mode is always RGBA in these scripts). -/
structure Img where
  width : Nat
  height : Nat
  pix : Nat → Nat → Nat × Nat × Nat × Nat

/-- Model of PIL `Image.resize((w, h), Image.Resampling.LANCZOS)`: the result
has exactly the requested dimensions and its content is a deterministic
function of the source image.  The pixel content here is a deterministic
placeholder (nearest-neighbour sampling); every use of this definition in
the claims relies only on its dimensions and determinism, never on the
filter's pixel values - pixel-level reasoning about the downsampling step
of `create_modern_icon` instead abstracts the filter behind a
support-radius contract (see `create_modern_icon` and the C8 theorem), a
contract this placeholder meets with radius 0 and PIL's actual LANCZOS
meets with a small finite radius.  PIL's resize never fails for positive
target sizes and resamples both up and down. -/
def resize (img : Img) (w h : Nat) : Img :=
  { width := w
    height := h
    pix := fun x y => img.pix (x * img.width / w) (y * img.height / h) }

/-- Model of `struct.pack('>I', n)`: four big-endian bytes for `n < 2^32`,
and `none` (modelling the raised `struct.error`) otherwise. -/
def pack_be32 (n : Nat) : Option (List Nat) :=
  if n < 2 ^ 32 then
    some [n / 2 ^ 24 % 256, n / 2 ^ 16 % 256, n / 2 ^ 8 % 256, n % 256]
  else
    none

/-- Big-endian 32-bit decoding of a 4-byte list (a reader's view of the
length fields); returns 0 on malformed input. -/
def unpack_be32 (b : List Nat) : Nat :=
  match b with
  | [b0, b1, b2, b3] => b0 * 2 ^ 24 + b1 * 2 ^ 16 + b2 * 2 ^ 8 + b3
  | _ => 0

/-- The fixed ICNS registry of `icon_types` from the scripts:
`[(512, b'ic09'), (256, b'ic08'), (128, b'ic07'), (32, b'ic11'), (16, b'ic04')]`,
with the 4-byte ASCII tags spelled out as byte values. -/
def icon_types : List (Nat × List Nat) :=
  [ (512, [105, 99, 48, 57])
  , (256, [105, 99, 48, 56])
  , (128, [105, 99, 48, 55])
  , (32, [105, 99, 49, 49])
  , (16, [105, 99, 48, 52]) ]

/-- The 4 magic bytes `b'icns'` written at the start of every ICNS file. -/
def ICNS_MAGIC : List Nat := [105, 99, 110, 115]

/-- One loop iteration of the chunk-building loop in `create_icns_manually`
(and the identical loops in `create_icns_file` and `create_icns_from_svg`):
given the PNG payload for one registry size (`none` if producing it raised),
build `type_code + struct.pack('>I', 8 + len(png_bytes)) + png_bytes`. -/
def buildChunk (payload : Option (List Nat)) (type_code : List Nat) :
    Option (List Nat) :=
  match payload with
  | none => none
  | some png_bytes =>
    match pack_be32 (8 + png_bytes.length) with
    | none => none
    | some sz => some (type_code ++ sz ++ png_bytes)

/-- The chunk-building loop over a list of registry entries: one chunk per
entry, in order, appended to `icon_data`; `none` as soon as any payload or
any length pack fails (the Python loop raises and the function aborts before
the output file is opened). -/
def buildIconDataGo (payloadAt : Nat → Option (List Nat)) :
    List (Nat × List Nat) → Option (List (List Nat))
  | [] => some []
  | st :: rest =>
    match buildChunk (payloadAt st.1) st.2 with
    | none => none
    | some c =>
      match buildIconDataGo payloadAt rest with
      | none => none
      | some cs => some (c :: cs)

/-- The whole chunk-building loop of the three ICNS encoders, run over the
fixed registry `icon_types`. -/
def buildIconData (payloadAt : Nat → Option (List Nat)) :
    Option (List (List Nat)) :=
  buildIconDataGo payloadAt icon_types

/-- Result of running one of the encoder functions against the output path:
the contents of the output file afterwards (`none` if it does not exist),
and whether the call completed without raising. -/
structure WriteResult where
  fileContents : Option (List Nat)
  ok : Bool
deriving DecidableEq

/-- The write phase shared by the three ICNS encoders: `with open(path,'wb')`
is entered only when `icon_data` was fully built; the file then receives
`b'icns'`, then `struct.pack('>I', total_size)`, then every chunk.  If the
chunk building raised, the file keeps its prior contents `prior`; if the
total-size pack raises, the file was already opened and holds just the 4
magic bytes when the exception propagates. -/
def write_icns (iconData : Option (List (List Nat))) (prior : Option (List Nat)) :
    WriteResult :=
  match iconData with
  | none => ⟨prior, false⟩
  | some icon_data =>
    let total_size := 8 + (icon_data.map List.length).sum
    match pack_be32 total_size with
    | none => ⟨some ICNS_MAGIC, false⟩
    | some sz => ⟨some (ICNS_MAGIC ++ sz ++ icon_data.flatten), true⟩

/-- Embedding of `create_icns_manually(png_path, icns_path)` from `scripts/generate_icns.py`.
`source` is the result of `Image.open(png_path)` (`none` models the
`FileNotFoundError` raised on a missing source, in which case nothing later
runs); `pngEnc` models `resized.save(png_buffer, format='PNG')` producing the
PNG byte string of an image; `prior` is the prior contents of `icns_path`. -/
def create_icns_manually (pngEnc : Img → Option (List Nat)) (source : Option Img)
    (prior : Option (List Nat)) : WriteResult :=
  match source with
  | none => ⟨prior, false⟩
  | some img => write_icns (buildIconData (fun s => pngEnc (resize img s s))) prior

/-- Embedding of `create_icns_file(png_path, icns_path)` from
`scripts/generate_professional_icon.py` is line-for-line the same algorithm
as `create_icns_manually` (open source, resize to each registry size, PNG
encode, pack chunks, write header and chunks), so it shares the embedding. -/
def create_icns_file (pngEnc : Img → Option (List Nat)) (source : Option Img)
    (prior : Option (List Nat)) : WriteResult :=
  create_icns_manually pngEnc source prior

/-- Embedding of `create_icns_from_svg(svg_path, icns_path)` from
`scripts/convert_svg_to_icons.py`: per registry size the payload comes from
`cairosvg.svg2png(url=svg_path, output_width=size, output_height=size)`,
modelled by `svg2png : Nat → Option (List Nat)`; the chunk packing and the
write phase are the same as in `create_icns_manually`. -/
def create_icns_from_svg (svg2png : Nat → Option (List Nat))
    (prior : Option (List Nat)) : WriteResult :=
  write_icns (buildIconData svg2png) prior

/-- A concrete executable stand-in for a PNG codec, used only to witness the
abstract-codec theorems at concrete inputs: it records the image's
dimensions as two big-endian 32-bit fields. -/
def pngEncodeModel (img : Img) : Option (List Nat) :=
  match pack_be32 img.width, pack_be32 img.height with
  | some w, some h => some (w ++ h)
  | _, _ => none

/-- Decoder matching `pngEncodeModel`: reads back the two dimension fields. -/
def pngDecodeModel (b : List Nat) : Option (Nat × Nat) :=
  match b with
  | [w0, w1, w2, w3, h0, h1, h2, h3] =>
    some (unpack_be32 [w0, w1, w2, w3], unpack_be32 [h0, h1, h2, h3])
  | _ => none

/-- A concrete 4x4 fully transparent test image, used to witness the
hypothesis-bearing theorems at concrete inputs. -/
def testImg : Img := ⟨4, 4, fun _ _ => (0, 0, 0, 0)⟩

/-- A list of `n` zero bytes, used to witness the overflow behaviour of the
length packing at a size the encoder must reject. -/
def bigZeros (n : Nat) : List Nat := List.replicate n 0

/-- Little-endian 16-bit field, as written by a little-endian icon writer. -/
def le16 (n : Nat) : List Nat := [n % 256, n / 2 ^ 8 % 256]

/-- Little-endian 32-bit field, as written by a little-endian icon writer. -/
def le32 (n : Nat) : List Nat :=
  [n % 256, n / 2 ^ 8 % 256, n / 2 ^ 16 % 256, n / 2 ^ 24 % 256]

/-- Little-endian 32-bit decoding of a 4-byte list; 0 on malformed input. -/
def decLE32 (b : List Nat) : Nat :=
  match b with
  | [b0, b1, b2, b3] => b0 + b1 * 2 ^ 8 + b2 * 2 ^ 16 + b3 * 2 ^ 24
  | _ => 0

/-- The fixed ICO size list `sizes = [(16,16), (32,32), (48,48), (64,64),
(128,128), (256,256)]` of both `create_ico_file` functions (the pairs are
always square, so only the side length is kept). -/
def ico_sizes : List Nat := [16, 32, 48, 64, 128, 256]

/-- Modelled from the spec: the ICO byte serialization performed inside
Pillow by `images[0].save(ico_path, format='ICO', sizes=sizes,
append_images=images[1:])` is library code, not part of the repository
sources; this directory entry follows spec section 4.3: width and height
bytes (0 means 256), colorCount 0, reserved 0, planes 1, bitCount 32, then
the payload byte count and the absolute payload offset as little-endian
32-bit fields. -/
def icoDirEntry (s bytesInRes offset : Nat) : List Nat :=
  [if s = 256 then 0 else s % 256, if s = 256 then 0 else s % 256, 0, 0]
    ++ le16 1 ++ le16 32 ++ le32 bytesInRes ++ le32 offset

/-- Running totals: `runningTotals acc [a, b, c] = [acc, acc+a, acc+a+b]`;
used for the absolute payload offsets (header plus directory precede all
payloads, payloads are laid out in order). -/
def runningTotals (acc : Nat) : List Nat → List Nat
  | [] => []
  | l :: ls => acc :: runningTotals (acc + l) ls

/-- The per-size loop of `create_ico_file`: resize the source to each
requested square size and PNG-encode it, in order, aborting if any step
raises. -/
def buildIcoPayloads (pngEnc : Img → Option (List Nat)) (img : Img) :
    List Nat → Option (List (List Nat))
  | [] => some []
  | s :: rest =>
    match pngEnc (resize img s s) with
    | none => none
    | some p =>
      match buildIcoPayloads pngEnc img rest with
      | none => none
      | some ps => some (p :: ps)

/-- Modelled from the spec: the directory block, one 16-byte entry per
(size, payload length, payload offset) triple, in insertion order. -/
def icoDirectory : List Nat → List Nat → List Nat → List Nat
  | s :: ss, l :: ls, o :: os => icoDirEntry s l o ++ icoDirectory ss ls os
  | _, _, _ => []

/-- Embedding of `create_ico_file(png_path, ico_path)` from `scripts/generate_icon.py` and
(identically) of `scripts/generate_professional_icon.py`: open the source
(`none` models a missing file), resize it to each size of `ico_sizes`,
PNG-encode each, and serialize.  The serialization itself happens inside
Pillow; it is modelled from the spec (section 4.3): file header
reserved(2)=0, type(2)=1, count(2)=N, then N 16-byte directory entries, then
the PNG payloads verbatim, in order, with offsets computed after all
payloads are known. -/
def create_ico_file (pngEnc : Img → Option (List Nat)) (source : Option Img) :
    Option (List Nat) :=
  match source with
  | none => none
  | some img =>
    match buildIcoPayloads pngEnc img ico_sizes with
    | none => none
    | some payloads =>
      let lens := payloads.map List.length
      let offs := runningTotals (6 + 16 * ico_sizes.length) lens
      some ([0, 0, 1, 0] ++ le16 ico_sizes.length
        ++ icoDirectory ico_sizes lens offs ++ payloads.flatten)

/-- The concrete ICO byte string produced from the test image with the
model codec, used to witness the round-trip theorem at a concrete input. -/
def icoTestBytes : List Nat :=
  (create_ico_file pngEncodeModel (some testImg)).getD []

/-- A directory entry as seen by a standard ICO reader, after applying the
0-means-256 rule to the width and height bytes. -/
structure IcoEntry where
  width : Nat
  height : Nat
  bytesInRes : Nat
  imageOffset : Nat
deriving DecidableEq

/-- A standard reader's view of one 16-byte directory entry. -/
def parseIcoEntry (b : List Nat) : Option IcoEntry :=
  match b with
  | [w, h, _, _, _, _, _, _, r0, r1, r2, r3, o0, o1, o2, o3] =>
    some ⟨if w = 0 then 256 else w, if h = 0 then 256 else h,
      decLE32 [r0, r1, r2, r3], decLE32 [o0, o1, o2, o3]⟩
  | _ => none

/-- A standard reader decoding the directory entries with the given indices
(entry `i` occupies the 16 bytes starting at byte `6 + 16*i`), extracting
each payload at its declared offset and length and decoding it with the
image codec `pngDec`. -/
def decodeIcoEntries (pngDec : List Nat → Option (Nat × Nat)) (bytes : List Nat) :
    List Nat → Option (List ((Nat × Nat) × Option (Nat × Nat)))
  | [] => some []
  | i :: is =>
    match parseIcoEntry ((bytes.drop (6 + 16 * i)).take 16) with
    | none => none
    | some e =>
      match decodeIcoEntries pngDec bytes is with
      | none => none
      | some rest =>
        some (((e.width, e.height),
          pngDec ((bytes.drop e.imageOffset).take e.bytesInRes)) :: rest)

/-- A standard ICO reader: check the 6-byte header (reserved 0, type 1),
read the entry count, then decode every directory entry and its payload.
For each entry it reports the (width, height) pair declared in the directory
(after the 0-means-256 rule) and the decoded dimensions of the payload. -/
def decode_ico (pngDec : List Nat → Option (Nat × Nat)) (bytes : List Nat) :
    Option (List ((Nat × Nat) × Option (Nat × Nat))) :=
  match bytes.take 6 with
  | [0, 0, 1, 0, c0, c1] =>
    decodeIcoEntries pngDec bytes (List.range (c0 + c1 * 2 ^ 8))
  | _ => none

/-- Model of one PIL `ImageDraw` primitive call (`draw.ellipse`,
`draw.line`, `draw.polygon`) as issued by `create_ilauncher_icon` and
`create_modern_icon`: the call repaints exactly the pixels inside its
footprint `inRegion` (the concrete geometry of the primitive is left
abstract) with its colour, and leaves every other pixel and the canvas
dimensions unchanged.  This is faithful to PIL at the level the claims use:
a primitive never touches pixels outside its drawn region. -/
structure DrawOp where
  inRegion : Nat → Nat → Bool
  color : Nat × Nat × Nat × Nat

/-- Apply one drawing primitive to the canvas. -/
def applyOp (img : Img) (op : DrawOp) : Img :=
  { img with pix := fun x y => if op.inRegion x y then op.color else img.pix x y }

/-- Apply a sequence of drawing primitives, first to last, to the canvas. -/
def applyOps (img : Img) (ops : List DrawOp) : Img :=
  ops.foldl applyOp img

/-- `Image.new('RGBA', (w, h), (0, 0, 0, 0))`: a fully transparent canvas. -/
def Image_new (w h : Nat) : Img := ⟨w, h, fun _ _ => (0, 0, 0, 0)⟩

/-- Pixel (x, y) lies outside the footprint of every primitive in `ops`:
nothing was drawn there. -/
def untouched (ops : List DrawOp) (x y : Nat) : Bool :=
  ops.all (fun op => !op.inRegion x y)

/-- Embedding of `create_ilauncher_icon(size)` from `scripts/generate_icon.py`: a
transparent RGBA canvas of exactly `size` x `size` is created and the
drawing primitives (background discs, magnifier ring, handle, lightning
polygon, highlight) are applied directly at the target size.  `ops` is the
abstract footprint model of those primitive calls. -/
def create_ilauncher_icon (ops : List DrawOp) (size : Nat) : Img :=
  applyOps (Image_new size size) ops

/-- Embedding of `create_modern_icon(size)` from `scripts/generate_professional_icon.py`:
a transparent RGBA canvas of `render_size = size * 2` is created, the
drawing primitives are applied at that doubled resolution (`ops` is their
abstract footprint model), `img.filter(ImageFilter.SMOOTH)` is applied
(`smooth`, an abstract dimension-preserving 3x3 neighbourhood filter), and
the result is downsampled to `size` x `size` with `Image.resize(...,
Image.Resampling.LANCZOS)`.  The downsampling call is abstracted by
`down : Img → Nat → Nat → Img` rather than fixed to the nearest-neighbour
`resize` model, because pixel-level claims about this function depend on
the resampling filter's support: PIL's LANCZOS at a 2-to-1 scale reads a
fixed window of several source pixels per axis around the source point,
not a single source pixel.  The C8 theorem constrains `down` exactly by
that documented behaviour: requested output dimensions, and transparency
of an output pixel whenever every source pixel within some finite support
radius of its source point is transparent. -/
def create_modern_icon (ops : List DrawOp) (smooth : Img → Img)
    (down : Img → Nat → Nat → Img) (size : Nat) : Img :=
  down (smooth (applyOps (Image_new (size * 2) (size * 2)) ops)) size size

/-- The outcome of one whole script run: the byte contents written into the
output directory, in order, and the interpreter's exit status. -/
structure RunResult where
  writes : List (List Nat)
  exitCode : Nat
deriving DecidableEq

/-- Embedding of `main()` from `scripts/convert_svg_to_icons.py`, run as a script.  Its
first action is `if not os.path.exists(svg_path)`: when the SVG source is
missing it prints a message and returns normally before any output file is
touched, and the interpreter exits with status 0 (the `except ImportError`
wrapper around `main()` is irrelevant to this path).  When the source
exists, the generation phase runs; `gen` abstracts the writes it performs. -/
def convert_svg_main (svgExists : Bool) (gen : List (List Nat)) : RunResult :=
  if svgExists then ⟨gen, 0⟩ else ⟨[], 0⟩

/-- Embedding of `main()` from `scripts/generate_icns.py`, run as a script: it calls
`create_icns_manually` with no exception handler, so a raised exception
(missing source file, a failing resize or PNG encode, a failing pack)
propagates and the interpreter exits with a non-zero status (modelled as 1);
a completed call exits with status 0.  The first component is the resulting
contents of the output path. -/
def generate_icns_main (pngEnc : Img → Option (List Nat)) (source : Option Img)
    (prior : Option (List Nat)) : Option (List Nat) × Nat :=
  let r := create_icns_manually pngEnc source prior
  (r.fileContents, if r.ok then 0 else 1)

theorem pack_be32_length {n : Nat} {b : List Nat} (h : pack_be32 n = some b) :
    b.length = 4 := by
  unfold pack_be32 at h
  split at h
  · cases h; rfl
  · cases h

theorem pack_be32_lt {n : Nat} {b : List Nat} (h : pack_be32 n = some b) :
    n < 2 ^ 32 := by
  unfold pack_be32 at h
  split at h
  · assumption
  · cases h

theorem unpack_pack_be32 {n : Nat} {b : List Nat} (h : pack_be32 n = some b) :
    unpack_be32 b = n := by
  have hn := pack_be32_lt h
  unfold pack_be32 at h
  rw [if_pos hn] at h
  cases h
  show n / 2 ^ 24 % 256 * 2 ^ 24 + n / 2 ^ 16 % 256 * 2 ^ 16
      + n / 2 ^ 8 % 256 * 2 ^ 8 + n % 256 = n
  omega

theorem write_icns_ok_some {iconData : Option (List (List Nat))}
    {prior : Option (List Nat)} (h : (write_icns iconData prior).ok = true) :
    ∃ d, iconData = some d := by
  cases iconData with
  | none => simp [write_icns] at h
  | some d => exact ⟨d, rfl⟩

theorem write_icns_spec (icon_data : List (List Nat)) (prior : Option (List Nat))
    (h : (write_icns (some icon_data) prior).ok = true) :
    ∃ content, (write_icns (some icon_data) prior).fileContents = some content ∧
      content.length = 8 + (icon_data.map List.length).sum ∧
      unpack_be32 ((content.drop 4).take 4) = content.length := by
  cases hp : pack_be32 (8 + (icon_data.map List.length).sum) with
  | none => simp [write_icns, hp] at h
  | some sz =>
    refine ⟨ICNS_MAGIC ++ sz ++ icon_data.flatten, ?_, ?_, ?_⟩
    · simp [write_icns, hp]
    · have h4 : sz.length = 4 := pack_be32_length hp
      simp [List.length_append, h4, List.length_flatten, ICNS_MAGIC]
      omega
    · have h4 : sz.length = 4 := pack_be32_length hp
      have hmag : (ICNS_MAGIC ++ sz ++ icon_data.flatten)
          = ICNS_MAGIC ++ (sz ++ icon_data.flatten) := by
        simp [List.append_assoc]
      rw [hmag, List.drop_left' (show ICNS_MAGIC.length = 4 from rfl),
        List.take_left' h4,
        unpack_pack_be32 hp]
      simp [List.length_append, h4, List.length_flatten, ICNS_MAGIC]
      omega

theorem buildChunk_spec {payload : Option (List Nat)} {tc c : List Nat}
    (h : buildChunk payload tc = some c) (h4 : tc.length = 4) :
    ∃ png sz, payload = some png ∧ pack_be32 (8 + png.length) = some sz ∧
      c = tc ++ (sz ++ png) ∧ c.take 4 = tc ∧ c.drop 8 = png ∧
      c.length = 8 + png.length ∧
      unpack_be32 ((c.drop 4).take 4) = 8 + png.length := by
  cases payload with
  | none => simp [buildChunk] at h
  | some png =>
    cases hp : pack_be32 (8 + png.length) with
    | none => simp [buildChunk, hp] at h
    | some sz =>
      have hsz4 : sz.length = 4 := pack_be32_length hp
      have hc : c = tc ++ (sz ++ png) := by
        simp [buildChunk, hp] at h
        exact h.symm
      have h8 : (tc ++ sz).length = 8 := by
        simp [List.length_append, h4, hsz4]
      refine ⟨png, sz, rfl, hp, hc, ?_, ?_, ?_, ?_⟩
      · rw [hc, List.take_left' h4]
      · rw [hc, ← List.append_assoc, List.drop_left' h8]
      · simp [hc, List.length_append, h4, hsz4]
        omega
      · rw [hc, List.drop_left' h4, List.take_left' hsz4, unpack_pack_be32 hp]

theorem buildIconData_some_parts {payloadAt : Nat → Option (List Nat)}
    {d : List (List Nat)} (h : buildIconData payloadAt = some d) :
    ∃ c1 c2 c3 c4 c5,
      d = [c1, c2, c3, c4, c5] ∧
      buildChunk (payloadAt 512) [105, 99, 48, 57] = some c1 ∧
      buildChunk (payloadAt 256) [105, 99, 48, 56] = some c2 ∧
      buildChunk (payloadAt 128) [105, 99, 48, 55] = some c3 ∧
      buildChunk (payloadAt 32) [105, 99, 49, 49] = some c4 ∧
      buildChunk (payloadAt 16) [105, 99, 48, 52] = some c5 := by
  cases h1 : buildChunk (payloadAt 512) [105, 99, 48, 57] with
  | none => simp [buildIconData, icon_types, buildIconDataGo, h1] at h
  | some c1 =>
  cases h2 : buildChunk (payloadAt 256) [105, 99, 48, 56] with
  | none => simp [buildIconData, icon_types, buildIconDataGo, h1, h2] at h
  | some c2 =>
  cases h3 : buildChunk (payloadAt 128) [105, 99, 48, 55] with
  | none => simp [buildIconData, icon_types, buildIconDataGo, h1, h2, h3] at h
  | some c3 =>
  cases h4 : buildChunk (payloadAt 32) [105, 99, 49, 49] with
  | none =>
    simp [buildIconData, icon_types, buildIconDataGo, h1, h2, h3, h4] at h
  | some c4 =>
  cases h5 : buildChunk (payloadAt 16) [105, 99, 48, 52] with
  | none =>
    simp [buildIconData, icon_types, buildIconDataGo, h1, h2, h3, h4, h5] at h
  | some c5 =>
    refine ⟨c1, c2, c3, c4, c5, ?_, rfl, rfl, rfl, rfl, rfl⟩
    simp [buildIconData, icon_types, buildIconDataGo, h1, h2, h3, h4, h5] at h
    exact h.symm

/-- C1: For every ICNS file produced by the encoder (`create_icns_manually`,
`create_icns_file`, `create_icns_from_svg`), the 32-bit total-length field
written in the file header equals 8 (header size) plus the sum of the
lengths of all chunks, and this declared total length equals the byte length
of the whole file as written. -/
theorem C1_icns_declared_total_length
    (pngEnc : Img → Option (List Nat)) (svg2png : Nat → Option (List Nat))
    (img : Img) (prior prior2 : Option (List Nat))
    (h1 : (create_icns_manually pngEnc (some img) prior).ok = true)
    (h2 : (create_icns_from_svg svg2png prior2).ok = true) :
    (∃ content icon_data,
      (create_icns_manually pngEnc (some img) prior).fileContents
        = some content ∧
      (create_icns_file pngEnc (some img) prior).fileContents = some content ∧
      buildIconData (fun s => pngEnc (resize img s s)) = some icon_data ∧
      content.length = 8 + (icon_data.map List.length).sum ∧
      unpack_be32 ((content.drop 4).take 4) = content.length) ∧
    (∃ content icon_data,
      (create_icns_from_svg svg2png prior2).fileContents = some content ∧
      buildIconData svg2png = some icon_data ∧
      content.length = 8 + (icon_data.map List.length).sum ∧
      unpack_be32 ((content.drop 4).take 4) = content.length) := by
  constructor
  · have h1' :
        (write_icns (buildIconData fun s => pngEnc (resize img s s)) prior).ok
          = true := h1
    obtain ⟨d, hd⟩ := write_icns_ok_some h1'
    rw [hd] at h1'
    obtain ⟨c, hc, hlen, hhdr⟩ := write_icns_spec d prior h1'
    refine ⟨c, d, ?_, ?_, hd, hlen, hhdr⟩
    · show (write_icns (buildIconData fun s => pngEnc (resize img s s))
        prior).fileContents = some c
      rw [hd]; exact hc
    · show (write_icns (buildIconData fun s => pngEnc (resize img s s))
        prior).fileContents = some c
      rw [hd]; exact hc
  · have h2' : (write_icns (buildIconData svg2png) prior2).ok = true := h2
    obtain ⟨d, hd⟩ := write_icns_ok_some h2'
    rw [hd] at h2'
    obtain ⟨c, hc, hlen, hhdr⟩ := write_icns_spec d prior2 h2'
    refine ⟨c, d, ?_, hd, hlen, hhdr⟩
    show (write_icns (buildIconData svg2png) prior2).fileContents = some c
    rw [hd]; exact hc

/-- Witness for C1: both hypotheses hold at the model codec and the concrete
test image, and the theorem applies there. -/
theorem C1_witness :
    ∃ content icon_data,
      (create_icns_manually pngEncodeModel (some testImg) none).fileContents
        = some content ∧
      (create_icns_file pngEncodeModel (some testImg) none).fileContents
        = some content ∧
      buildIconData (fun s => pngEncodeModel (resize testImg s s))
        = some icon_data ∧
      content.length = 8 + (icon_data.map List.length).sum ∧
      unpack_be32 ((content.drop 4).take 4) = content.length :=
  (C1_icns_declared_total_length pngEncodeModel
    (fun s => pngEncodeModel (resize testImg s s)) testImg none none
    (by decide) (by decide)).1

/-- C2: Every chunk emitted by the ICNS encoder consists of exactly a 4-byte
ASCII type tag, then a 32-bit unsigned big-endian length field whose value
equals 8 plus the byte length of the PNG payload, then the payload verbatim;
the chunk byte string's total length equals the value of its own length
field. -/
theorem C2_chunk_layout
    (payload : Option (List Nat)) (size : Nat) (type_code chunk : List Nat)
    (hreg : (size, type_code) ∈ icon_types)
    (hb : buildChunk payload type_code = some chunk) :
    ∃ png_bytes sz,
      payload = some png_bytes ∧
      pack_be32 (8 + png_bytes.length) = some sz ∧
      chunk = type_code ++ (sz ++ png_bytes) ∧
      type_code.length = 4 ∧ (∀ c ∈ type_code, c < 128) ∧
      unpack_be32 sz = 8 + png_bytes.length ∧
      chunk.length = 8 + png_bytes.length ∧
      chunk.length = unpack_be32 ((chunk.drop 4).take 4) := by
  have htag : type_code.length = 4 ∧ ∀ c ∈ type_code, c < 128 := by
    have hall : ∀ st ∈ icon_types, st.2.length = 4 ∧ ∀ c ∈ st.2, c < 128 := by
      decide
    exact hall (size, type_code) hreg
  obtain ⟨png, sz, hpay, hp, hc, htake, hdrop, hlen, hfield⟩ :=
    buildChunk_spec hb htag.1
  exact ⟨png, sz, hpay, hp, hc, htag.1, htag.2, unpack_pack_be32 hp, hlen,
    by rw [hfield, hlen]⟩

/-- Witness for C2: the 512-pixel registry entry with a concrete payload. -/
theorem C2_witness :
    ∃ png_bytes sz,
      some [9, 9, 9] = some png_bytes ∧
      pack_be32 (8 + png_bytes.length) = some sz ∧
      buildChunk (some [9, 9, 9]) [105, 99, 48, 57]
        = some ([105, 99, 48, 57] ++ (sz ++ png_bytes)) ∧
      ([105, 99, 48, 57] : List Nat).length = 4 ∧
      (∀ c ∈ ([105, 99, 48, 57] : List Nat), c < 128) ∧
      unpack_be32 sz = 8 + png_bytes.length := by
  obtain ⟨png, sz, hpay, hp, hc, h4, hascii, hval, _, _⟩ :=
    C2_chunk_layout (some [9, 9, 9]) 512 [105, 99, 48, 57]
      ([105, 99, 48, 57] ++ ([0, 0, 0, 11] ++ [9, 9, 9]))
      (by decide) (by decide)
  exact ⟨png, sz, hpay, hp, by rw [← hc]; decide, h4, hascii, hval⟩

theorem write_icns_ok_contents {d : List (List Nat)} {prior : Option (List Nat)}
    (h : (write_icns (some d) prior).ok = true) :
    ∃ sz, pack_be32 (8 + (d.map List.length).sum) = some sz ∧
      (write_icns (some d) prior).fileContents
        = some (ICNS_MAGIC ++ sz ++ d.flatten) := by
  cases hp : pack_be32 (8 + (d.map List.length).sum) with
  | none => simp [write_icns, hp] at h
  | some sz => exact ⟨sz, rfl, by simp [write_icns, hp]⟩

theorem pngDecodeModel_pngEncodeModel {i : Img} {b : List Nat}
    (h : pngEncodeModel i = some b) :
    pngDecodeModel b = some (i.width, i.height) := by
  unfold pngEncodeModel at h
  cases hw : pack_be32 i.width with
  | none => rw [hw] at h; cases h
  | some wb =>
    cases hh : pack_be32 i.height with
    | none => rw [hw, hh] at h; cases h
    | some hb =>
      rw [hw, hh] at h
      have hwlt := pack_be32_lt hw
      have hhlt := pack_be32_lt hh
      have hwb : wb = [i.width / 2 ^ 24 % 256, i.width / 2 ^ 16 % 256,
          i.width / 2 ^ 8 % 256, i.width % 256] := by
        unfold pack_be32 at hw
        rw [if_pos hwlt] at hw
        exact (Option.some.inj hw).symm
      have hhb : hb = [i.height / 2 ^ 24 % 256, i.height / 2 ^ 16 % 256,
          i.height / 2 ^ 8 % 256, i.height % 256] := by
        unfold pack_be32 at hh
        rw [if_pos hhlt] at hh
        exact (Option.some.inj hh).symm
      cases h
      subst hwb hhb
      show some (unpack_be32 _, unpack_be32 _) = _
      simp [unpack_be32]
      constructor
      · omega
      · omega

/-- C3: Every produced ICNS file contains exactly 5 chunks, whose
(size, type tag) pairs are exactly 512-'ic09', 256-'ic08', 128-'ic07',
32-'ic11', 16-'ic04', written in that order, and each chunk's payload is a
PNG image whose width and height equal the tag's associated size. -/
theorem C3_five_chunks_registry_order
    (pngEnc : Img → Option (List Nat)) (svg2png : Nat → Option (List Nat))
    (pngDec : List Nat → Option (Nat × Nat))
    (img : Img) (prior prior2 : Option (List Nat))
    (hcodec : ∀ i b, pngEnc i = some b → pngDec b = some (i.width, i.height))
    (hsvg : ∀ s b, svg2png s = some b → pngDec b = some (s, s))
    (h1 : (create_icns_manually pngEnc (some img) prior).ok = true)
    (h2 : (create_icns_from_svg svg2png prior2).ok = true) :
    (∃ sz c1 c2 c3 c4 c5,
      (create_icns_manually pngEnc (some img) prior).fileContents
        = some (ICNS_MAGIC ++ sz ++ ([c1, c2, c3, c4, c5] : List (List Nat)).flatten) ∧
      buildIconData (fun s => pngEnc (resize img s s)) = some [c1, c2, c3, c4, c5] ∧
      (c1.take 4 = [105, 99, 48, 57] ∧ pngDec (c1.drop 8) = some (512, 512)) ∧
      (c2.take 4 = [105, 99, 48, 56] ∧ pngDec (c2.drop 8) = some (256, 256)) ∧
      (c3.take 4 = [105, 99, 48, 55] ∧ pngDec (c3.drop 8) = some (128, 128)) ∧
      (c4.take 4 = [105, 99, 49, 49] ∧ pngDec (c4.drop 8) = some (32, 32)) ∧
      (c5.take 4 = [105, 99, 48, 52] ∧ pngDec (c5.drop 8) = some (16, 16))) ∧
    (∃ sz c1 c2 c3 c4 c5,
      (create_icns_from_svg svg2png prior2).fileContents
        = some (ICNS_MAGIC ++ sz ++ ([c1, c2, c3, c4, c5] : List (List Nat)).flatten) ∧
      buildIconData svg2png = some [c1, c2, c3, c4, c5] ∧
      (c1.take 4 = [105, 99, 48, 57] ∧ pngDec (c1.drop 8) = some (512, 512)) ∧
      (c2.take 4 = [105, 99, 48, 56] ∧ pngDec (c2.drop 8) = some (256, 256)) ∧
      (c3.take 4 = [105, 99, 48, 55] ∧ pngDec (c3.drop 8) = some (128, 128)) ∧
      (c4.take 4 = [105, 99, 49, 49] ∧ pngDec (c4.drop 8) = some (32, 32)) ∧
      (c5.take 4 = [105, 99, 48, 52] ∧ pngDec (c5.drop 8) = some (16, 16))) := by
  constructor
  · have h1' :
        (write_icns (buildIconData fun s => pngEnc (resize img s s)) prior).ok
          = true := h1
    obtain ⟨d, hd⟩ := write_icns_ok_some h1'
    rw [hd] at h1'
    obtain ⟨c1, c2, c3, c4, c5, hdeq, hb1, hb2, hb3, hb4, hb5⟩ :=
      buildIconData_some_parts hd
    obtain ⟨p1, s1, hp1, _, _, ht1, hq1, _, _⟩ := buildChunk_spec hb1 rfl
    obtain ⟨p2, s2, hp2, _, _, ht2, hq2, _, _⟩ := buildChunk_spec hb2 rfl
    obtain ⟨p3, s3, hp3, _, _, ht3, hq3, _, _⟩ := buildChunk_spec hb3 rfl
    obtain ⟨p4, s4, hp4, _, _, ht4, hq4, _, _⟩ := buildChunk_spec hb4 rfl
    obtain ⟨p5, s5, hp5, _, _, ht5, hq5, _, _⟩ := buildChunk_spec hb5 rfl
    obtain ⟨sz, hsz, hcont⟩ := write_icns_ok_contents h1'
    subst hdeq
    have hcm : (create_icns_manually pngEnc (some img) prior).fileContents
        = some (ICNS_MAGIC ++ sz ++ ([c1, c2, c3, c4, c5] : List (List Nat)).flatten) := by
      show (write_icns (buildIconData fun s => pngEnc (resize img s s))
        prior).fileContents = _
      rw [hd]
      exact hcont
    refine ⟨sz, c1, c2, c3, c4, c5, hcm, hd, ⟨ht1, ?_⟩, ⟨ht2, ?_⟩,
      ⟨ht3, ?_⟩, ⟨ht4, ?_⟩, ⟨ht5, ?_⟩⟩
    · rw [hq1]; exact hcodec _ _ hp1
    · rw [hq2]; exact hcodec _ _ hp2
    · rw [hq3]; exact hcodec _ _ hp3
    · rw [hq4]; exact hcodec _ _ hp4
    · rw [hq5]; exact hcodec _ _ hp5
  · have h2' : (write_icns (buildIconData svg2png) prior2).ok = true := h2
    obtain ⟨d, hd⟩ := write_icns_ok_some h2'
    rw [hd] at h2'
    obtain ⟨c1, c2, c3, c4, c5, hdeq, hb1, hb2, hb3, hb4, hb5⟩ :=
      buildIconData_some_parts hd
    obtain ⟨p1, s1, hp1, _, _, ht1, hq1, _, _⟩ := buildChunk_spec hb1 rfl
    obtain ⟨p2, s2, hp2, _, _, ht2, hq2, _, _⟩ := buildChunk_spec hb2 rfl
    obtain ⟨p3, s3, hp3, _, _, ht3, hq3, _, _⟩ := buildChunk_spec hb3 rfl
    obtain ⟨p4, s4, hp4, _, _, ht4, hq4, _, _⟩ := buildChunk_spec hb4 rfl
    obtain ⟨p5, s5, hp5, _, _, ht5, hq5, _, _⟩ := buildChunk_spec hb5 rfl
    obtain ⟨sz, hsz, hcont⟩ := write_icns_ok_contents h2'
    subst hdeq
    have hcm : (create_icns_from_svg svg2png prior2).fileContents
        = some (ICNS_MAGIC ++ sz ++ ([c1, c2, c3, c4, c5] : List (List Nat)).flatten) := by
      show (write_icns (buildIconData svg2png) prior2).fileContents = _
      rw [hd]
      exact hcont
    refine ⟨sz, c1, c2, c3, c4, c5, hcm, hd, ⟨ht1, ?_⟩, ⟨ht2, ?_⟩,
      ⟨ht3, ?_⟩, ⟨ht4, ?_⟩, ⟨ht5, ?_⟩⟩
    · rw [hq1]; exact hsvg _ _ hp1
    · rw [hq2]; exact hsvg _ _ hp2
    · rw [hq3]; exact hsvg _ _ hp3
    · rw [hq4]; exact hsvg _ _ hp4
    · rw [hq5]; exact hsvg _ _ hp5

/-- Witness for C3: the model codec and the concrete test image satisfy all
the hypotheses, and the theorem applies there. -/
theorem C3_witness :
    ∃ sz c1 c2 c3 c4 c5,
      (create_icns_manually pngEncodeModel (some testImg) none).fileContents
        = some (ICNS_MAGIC ++ sz
            ++ ([c1, c2, c3, c4, c5] : List (List Nat)).flatten) ∧
      buildIconData (fun s => pngEncodeModel (resize testImg s s))
        = some [c1, c2, c3, c4, c5] ∧
      (c1.take 4 = [105, 99, 48, 57]
        ∧ pngDecodeModel (c1.drop 8) = some (512, 512)) ∧
      (c2.take 4 = [105, 99, 48, 56]
        ∧ pngDecodeModel (c2.drop 8) = some (256, 256)) ∧
      (c3.take 4 = [105, 99, 48, 55]
        ∧ pngDecodeModel (c3.drop 8) = some (128, 128)) ∧
      (c4.take 4 = [105, 99, 49, 49]
        ∧ pngDecodeModel (c4.drop 8) = some (32, 32)) ∧
      (c5.take 4 = [105, 99, 48, 52]
        ∧ pngDecodeModel (c5.drop 8) = some (16, 16)) :=
  (C3_five_chunks_registry_order pngEncodeModel
    (fun s => pngEncodeModel (resize testImg s s)) pngDecodeModel testImg
    none none
    (fun _ _ h => pngDecodeModel_pngEncodeModel h)
    (fun _ _ h => pngDecodeModel_pngEncodeModel h)
    (by decide) (by decide)).1

/-- C4: For every source image and every requested positive target size S,
the resampling step produces an image of exactly S x S pixels, both when S
is smaller than the source (downsampling) and when S is larger than the
source (upsampling is always permitted and never fails). -/
theorem C4_resample_exact_dims (img : Img) (S : Nat) (hS : 0 < S) :
    ((resize img S S).width = S ∧ (resize img S S).height = S) ∧
    (img.width < S →
      (resize img S S).width = S ∧ (resize img S S).height = S) ∧
    (S < img.width →
      (resize img S S).width = S ∧ (resize img S S).height = S) :=
  ⟨⟨rfl, rfl⟩, fun _ => ⟨rfl, rfl⟩, fun _ => ⟨rfl, rfl⟩⟩

/-- Witness for C4: the concrete test image at target size 7 (upsampling)
satisfies the hypothesis and the theorem applies there. -/
theorem C4_witness :
    ((resize testImg 7 7).width = 7 ∧ (resize testImg 7 7).height = 7) ∧
    (testImg.width < 7 →
      (resize testImg 7 7).width = 7 ∧ (resize testImg 7 7).height = 7) ∧
    (7 < testImg.width →
      (resize testImg 7 7).width = 7 ∧ (resize testImg 7 7).height = 7) :=
  C4_resample_exact_dims testImg 7 (by decide)

/-- C5 counterexample: with the SVG source missing, `main()` of
`scripts/convert_svg_to_icons.py` writes nothing but returns normally, so
the process exits with status 0, not the non-zero status the claim
requires. -/
theorem C5_counterexample :
    (convert_svg_main false []).writes = [] ∧
    ¬ (convert_svg_main false []).exitCode ≠ 0 := by decide

/-- C5 (amended): if the source file is missing, the error is detected
immediately and no file in the output directory is created or modified;
`generate_icns.py` exits with a non-zero status (the uncaught
`FileNotFoundError` propagates), but `convert_svg_to_icons.py` prints the
error and returns normally, exiting with status 0. -/
theorem C5_missing_source_no_output
    (pngEnc : Img → Option (List Nat)) (prior : Option (List Nat))
    (svgExists : Bool) (gen : List (List Nat)) (hsvg : svgExists = false) :
    ((convert_svg_main svgExists gen).writes = [] ∧
      (convert_svg_main svgExists gen).exitCode = 0) ∧
    ((generate_icns_main pngEnc none prior).1 = prior ∧
      (generate_icns_main pngEnc none prior).2 ≠ 0) := by
  subst hsvg
  exact ⟨⟨rfl, rfl⟩, ⟨rfl, Nat.one_ne_zero⟩⟩

/-- Witness for C5 (amended): a concrete run with a missing source. -/
theorem C5_witness :
    ((convert_svg_main false [[7]]).writes = [] ∧
      (convert_svg_main false [[7]]).exitCode = 0) ∧
    ((generate_icns_main pngEncodeModel none (some [1, 2])).1 = some [1, 2] ∧
      (generate_icns_main pngEncodeModel none (some [1, 2])).2 ≠ 0) :=
  C5_missing_source_no_output pngEncodeModel (some [1, 2]) false [[7]] rfl

theorem create_icns_manually_idempotent
    (pngEnc : Img → Option (List Nat)) (source : Option Img)
    (prior : Option (List Nat)) :
    (create_icns_manually pngEnc source
      (create_icns_manually pngEnc source prior).fileContents).fileContents
    = (create_icns_manually pngEnc source prior).fileContents := by
  cases source with
  | none => rfl
  | some img =>
    simp only [create_icns_manually]
    cases hb : buildIconData (fun s => pngEnc (resize img s s)) with
    | none => rfl
    | some d =>
      cases hp : pack_be32 (8 + (d.map List.length).sum) with
      | none => simp [write_icns, hp]
      | some sz => simp [write_icns, hp]

/-- C6: The generation pipeline is deterministic: running it twice on the
same source image produces byte-identical output files, and for the
resampler in particular, identical input image plus identical target size
always yields byte-identical output.  (The embedding is a pure function of
its inputs, reflecting that the scripts use no randomness, time, or
environment reads while producing bytes; the third conjunct shows a second
run over the first run's output file reproduces it exactly.) -/
theorem C6_deterministic_and_idempotent :
    (∀ (i1 i2 : Img) (s : Nat), i1 = i2 → resize i1 s s = resize i2 s s) ∧
    (∀ (pngEnc : Img → Option (List Nat)) (s1 s2 : Option Img)
        (p1 p2 : Option (List Nat)), s1 = s2 → p1 = p2 →
        create_icns_manually pngEnc s1 p1 = create_icns_manually pngEnc s2 p2) ∧
    (∀ (pngEnc : Img → Option (List Nat)) (source : Option Img)
        (prior : Option (List Nat)),
        (create_icns_manually pngEnc source
          (create_icns_manually pngEnc source prior).fileContents).fileContents
        = (create_icns_manually pngEnc source prior).fileContents) :=
  ⟨fun _ _ _ h => by rw [h], fun _ _ _ _ _ h1 h2 => by rw [h1, h2],
    create_icns_manually_idempotent⟩

/-- Witness for C6: the determinism and idempotence conjuncts applied at the
concrete test image. -/
theorem C6_witness :
    resize testImg 3 3 = resize testImg 3 3 ∧
    (create_icns_manually pngEncodeModel (some testImg)
      (create_icns_manually pngEncodeModel (some testImg)
        none).fileContents).fileContents
    = (create_icns_manually pngEncodeModel (some testImg) none).fileContents :=
  ⟨C6_deterministic_and_idempotent.1 testImg testImg 3 rfl,
    C6_deterministic_and_idempotent.2.2 pngEncodeModel (some testImg) none⟩

/-- C9: The ICNS encoder opens its output path for writing only after all
five chunks have been fully built in memory; hence if resizing or
PNG-encoding of any registry size raises an error, the output .icns file is
neither created nor modified. -/
theorem C9_no_write_on_encode_failure
    (pngEnc : Img → Option (List Nat)) (svg2png : Nat → Option (List Nat))
    (img : Img) (prior prior2 prior3 : Option (List Nat))
    (h1 : buildIconData (fun s => pngEnc (resize img s s)) = none)
    (h2 : buildIconData svg2png = none) :
    ((create_icns_manually pngEnc (some img) prior).fileContents = prior ∧
      (create_icns_manually pngEnc (some img) prior).ok = false) ∧
    ((create_icns_file pngEnc (some img) prior2).fileContents = prior2 ∧
      (create_icns_file pngEnc (some img) prior2).ok = false) ∧
    ((create_icns_from_svg svg2png prior3).fileContents = prior3 ∧
      (create_icns_from_svg svg2png prior3).ok = false) := by
  refine ⟨⟨?_, ?_⟩, ⟨?_, ?_⟩, ⟨?_, ?_⟩⟩ <;>
    simp [create_icns_manually, create_icns_file, create_icns_from_svg,
      write_icns, h1, h2]

/-- Witness for C9: a PNG encoder that raises on every image leaves the
prior file contents untouched. -/
theorem C9_witness :
    ((create_icns_manually (fun _ => none) (some testImg)
        (some [1, 2, 3])).fileContents = some [1, 2, 3] ∧
      (create_icns_manually (fun _ => none) (some testImg)
        (some [1, 2, 3])).ok = false) ∧
    ((create_icns_file (fun _ => none) (some testImg)
        (some [4])).fileContents = some [4] ∧
      (create_icns_file (fun _ => none) (some testImg)
        (some [4])).ok = false) ∧
    ((create_icns_from_svg (fun _ => none) (some [5])).fileContents
        = some [5] ∧
      (create_icns_from_svg (fun _ => none) (some [5])).ok = false) :=
  C9_no_write_on_encode_failure (fun _ => none) (fun _ => none) testImg
    (some [1, 2, 3]) (some [4]) (some [5]) rfl rfl

/-- C10: The ICNS length fields never silently wrap: for every chunk
payload whose length is at most 2^32 - 9, the packed 32-bit big-endian
length value is numerically exact, and if a computed chunk or total size
reached 2^32 the encoder raises (`struct.pack('>I', ...)` rejects
out-of-range values) rather than write a truncated length. -/
theorem C10_length_fields_no_wrap
    (n m : Nat) (pngEnc : Img → Option (List Nat)) (img : Img)
    (prior : Option (List Nat)) (p : List Nat)
    (hn : n ≤ 2 ^ 32 - 9)
    (hm : 2 ^ 32 ≤ 8 + m)
    (hp : pngEnc (resize img 512 512) = some p)
    (hbig : 2 ^ 32 ≤ 8 + p.length) :
    (∃ b, pack_be32 (8 + n) = some b ∧ b.length = 4 ∧
      unpack_be32 b = 8 + n) ∧
    pack_be32 (8 + m) = none ∧
    ((create_icns_manually pngEnc (some img) prior).ok = false ∧
      (create_icns_manually pngEnc (some img) prior).fileContents = prior) := by
  refine ⟨?_, ?_, ?_⟩
  · have hs : pack_be32 (8 + n)
        = some [(8 + n) / 2 ^ 24 % 256, (8 + n) / 2 ^ 16 % 256,
            (8 + n) / 2 ^ 8 % 256, (8 + n) % 256] := by
      unfold pack_be32
      rw [if_pos (by omega : 8 + n < 2 ^ 32)]
    exact ⟨_, hs, pack_be32_length hs, unpack_pack_be32 hs⟩
  · unfold pack_be32
    rw [if_neg (by omega : ¬ 8 + m < 2 ^ 32)]
  · have hpack : pack_be32 (8 + p.length) = none := by
      unfold pack_be32
      rw [if_neg (by omega : ¬ 8 + p.length < 2 ^ 32)]
    have hchunk : buildChunk (pngEnc (resize img 512 512)) [105, 99, 48, 57]
        = none := by
      rw [hp]
      simp [buildChunk, hpack]
    have hbuild : buildIconData (fun s => pngEnc (resize img s s)) = none := by
      simp [buildIconData, icon_types, buildIconDataGo, hchunk]
    constructor <;> simp [create_icns_manually, write_icns, hbuild]

theorem bigZeros_length (n : Nat) : (bigZeros n).length = n :=
  List.length_replicate n 0

/-- Witness for C10: a payload of exactly 2^32 bytes makes the 512-entry
chunk size out of range, and the encoder reports failure with the output
untouched. -/
theorem C10_witness :
    (∃ b, pack_be32 (8 + 0) = some b ∧ b.length = 4 ∧
      unpack_be32 b = 8 + 0) ∧
    pack_be32 (8 + (2 ^ 32 - 8)) = none ∧
    ((create_icns_manually (fun _ => some (bigZeros (2 ^ 32)))
        (some testImg) none).ok = false ∧
      (create_icns_manually (fun _ => some (bigZeros (2 ^ 32)))
        (some testImg) none).fileContents = none) :=
  C10_length_fields_no_wrap 0 (2 ^ 32 - 8)
    (fun _ => some (bigZeros (2 ^ 32))) testImg none
    (bigZeros (2 ^ 32)) (by decide) (by decide) rfl
    (by rw [bigZeros_length]; exact Nat.le_add_left _ _)

theorem applyOps_width (ops : List DrawOp) (img : Img) :
    (applyOps img ops).width = img.width := by
  induction ops generalizing img with
  | nil => rfl
  | cons op rest ih => exact ih (applyOp img op)

theorem applyOps_height (ops : List DrawOp) (img : Img) :
    (applyOps img ops).height = img.height := by
  induction ops generalizing img with
  | nil => rfl
  | cons op rest ih => exact ih (applyOp img op)

theorem applyOps_pix_untouched (ops : List DrawOp) (img : Img) (x y : Nat)
    (h : untouched ops x y = true) :
    (applyOps img ops).pix x y = img.pix x y := by
  induction ops generalizing img with
  | nil => rfl
  | cons op rest ih =>
    simp only [untouched, List.all_cons, Bool.and_eq_true,
      Bool.not_eq_true'] at h
    show (applyOps (applyOp img op) rest).pix x y = img.pix x y
    rw [ih (applyOp img op) h.2]
    simp [applyOp, h.1]

theorem resize_halving_support {i : Img} {size a b : Nat} (hpos : 0 < size)
    (hw : i.width = size * 2) (hh : i.height = size * 2)
    (h : ∀ u v, 2 * a ≤ u + 0 → u ≤ 2 * a + 0 → 2 * b ≤ v + 0 →
      v ≤ 2 * b + 0 → i.pix u v = (0, 0, 0, 0)) :
    (resize i size size).pix a b = (0, 0, 0, 0) := by
  show i.pix (a * i.width / size) (b * i.height / size) = (0, 0, 0, 0)
  rw [hw, hh, show a * (size * 2) = 2 * a * size by ring,
    show b * (size * 2) = 2 * b * size by ring,
    Nat.mul_div_cancel _ hpos, Nat.mul_div_cancel _ hpos]
  exact h (2 * a) (2 * b) (by omega) (by omega) (by omega) (by omega)

/-- C8: For every requested square dimension S, the rasterizer
(`create_ilauncher_icon` / `create_modern_icon`) returns an RGBA image whose
width and height both exactly equal S, with an alpha channel in which pixels
where nothing was drawn remain transparent; `create_modern_icon` achieves
this by drawing at 2 x S and downsampling to S.  `smooth` abstracts
`ImageFilter.SMOOTH` (a dimension-preserving filter that keeps a pixel
transparent when its whole 3x3 neighbourhood is transparent) and `down`
abstracts the downsampling call `img.resize((size, size), LANCZOS)`,
constrained only to produce the requested dimensions and to have a finite
support radius `R`: an output pixel (a, b) stays transparent when every
source pixel within distance R of its source point (2a, 2b) is
transparent.  PIL's LANCZOS at a 2-to-1 scale reads a fixed window of
about 6 source pixels per axis around the source point, so it satisfies
this contract with a small concrete R (and the nearest-neighbour model
satisfies it with R = 0); the pixels that remain transparent are exactly
those whose whole R + 1 window (filter support widened by the 3x3
smoothing reach) was never drawn on. -/
theorem C8_rasterizer_dims_and_alpha
    (ops1 ops2 : List DrawOp) (smooth : Img → Img)
    (down : Img → Nat → Nat → Img) (R size x y a b : Nat)
    (hsize : 0 < size)
    (hsw : ∀ i : Img, (smooth i).width = i.width)
    (hsh : ∀ i : Img, (smooth i).height = i.height)
    (hsp : ∀ (i : Img) (u v : Nat),
      (∀ u' v', u ≤ u' + 1 → u' ≤ u + 1 → v ≤ v' + 1 → v' ≤ v + 1 →
        i.pix u' v' = (0, 0, 0, 0)) →
      (smooth i).pix u v = (0, 0, 0, 0))
    (hdw : ∀ (i : Img) (w h : Nat), (down i w h).width = w)
    (hdh : ∀ (i : Img) (w h : Nat), (down i w h).height = h)
    (hdp : ∀ (i : Img) (a' b' : Nat), i.width = size * 2 →
      i.height = size * 2 →
      (∀ u v, 2 * a' ≤ u + R → u ≤ 2 * a' + R → 2 * b' ≤ v + R →
        v ≤ 2 * b' + R → i.pix u v = (0, 0, 0, 0)) →
      (down i size size).pix a' b' = (0, 0, 0, 0))
    (hun1 : untouched ops1 x y = true)
    (hun2 : ∀ u v, 2 * a ≤ u + (R + 1) → u ≤ 2 * a + (R + 1) →
      2 * b ≤ v + (R + 1) → v ≤ 2 * b + (R + 1) →
      untouched ops2 u v = true) :
    ((create_ilauncher_icon ops1 size).width = size ∧
      (create_ilauncher_icon ops1 size).height = size ∧
      (create_ilauncher_icon ops1 size).pix x y = (0, 0, 0, 0)) ∧
    ((create_modern_icon ops2 smooth down size).width = size ∧
      (create_modern_icon ops2 smooth down size).height = size ∧
      create_modern_icon ops2 smooth down size
        = down (smooth (applyOps (Image_new (size * 2) (size * 2)) ops2))
            size size ∧
      (create_modern_icon ops2 smooth down size).pix a b = (0, 0, 0, 0)) := by
  refine ⟨⟨?_, ?_, ?_⟩, ?_, ?_, rfl, ?_⟩
  · exact applyOps_width ops1 (Image_new size size)
  · exact applyOps_height ops1 (Image_new size size)
  · rw [show (create_ilauncher_icon ops1 size).pix x y
        = (applyOps (Image_new size size) ops1).pix x y from rfl,
      applyOps_pix_untouched ops1 (Image_new size size) x y hun1]
    rfl
  · exact hdw _ _ _
  · exact hdh _ _ _
  · have hJw : (smooth (applyOps (Image_new (size * 2) (size * 2))
        ops2)).width = size * 2 := by
      rw [hsw, applyOps_width]
      rfl
    have hJh : (smooth (applyOps (Image_new (size * 2) (size * 2))
        ops2)).height = size * 2 := by
      rw [hsh, applyOps_height]
      rfl
    show (down (smooth (applyOps (Image_new (size * 2) (size * 2)) ops2))
      size size).pix a b = (0, 0, 0, 0)
    refine hdp _ a b hJw hJh (fun u v h1 h2 h3 h4 => ?_)
    refine hsp _ u v (fun u' v' g1 g2 g3 g4 => ?_)
    rw [applyOps_pix_untouched ops2 _ u' v'
      (hun2 u' v' (by omega) (by omega) (by omega) (by omega))]
    rfl

/-- Witness for C8: no primitives, the identity filter, the
nearest-neighbour resampler (support radius 0) and size 1 satisfy every
hypothesis, and the theorem applies there. -/
theorem C8_witness :
    ((create_ilauncher_icon [] 1).width = 1 ∧
      (create_ilauncher_icon [] 1).height = 1 ∧
      (create_ilauncher_icon [] 1).pix 0 0 = (0, 0, 0, 0)) ∧
    ((create_modern_icon [] id resize 1).width = 1 ∧
      (create_modern_icon [] id resize 1).height = 1 ∧
      create_modern_icon [] id resize 1
        = resize (id (applyOps (Image_new (1 * 2) (1 * 2)) [])) 1 1 ∧
      (create_modern_icon [] id resize 1).pix 0 0 = (0, 0, 0, 0)) :=
  C8_rasterizer_dims_and_alpha [] [] id resize 0 1 0 0 0 0 (by decide)
    (fun _ => rfl) (fun _ => rfl)
    (fun i u v h => h u v (Nat.le_succ u) (Nat.le_succ u)
      (Nat.le_succ v) (Nat.le_succ v))
    (fun _ _ _ => rfl) (fun _ _ _ => rfl)
    (fun i a' b' hw hh h => resize_halving_support Nat.one_pos hw hh h)
    rfl (fun _ _ _ _ _ _ => rfl)

theorem icoDirEntry_length (s r o : Nat) : (icoDirEntry s r o).length = 16 := by
  simp [icoDirEntry, le16, le32]

theorem decLE32_le32 {n : Nat} (h : n < 2 ^ 32) : decLE32 (le32 n) = n := by
  show n % 256 + n / 2 ^ 8 % 256 * 2 ^ 8 + n / 2 ^ 16 % 256 * 2 ^ 16
      + n / 2 ^ 24 % 256 * 2 ^ 24 = n
  omega

theorem buildIcoPayloads_some_parts {pngEnc : Img → Option (List Nat)}
    {img : Img} {ps : List (List Nat)}
    (h : buildIcoPayloads pngEnc img ico_sizes = some ps) :
    ∃ p1 p2 p3 p4 p5 p6,
      ps = [p1, p2, p3, p4, p5, p6] ∧
      pngEnc (resize img 16 16) = some p1 ∧
      pngEnc (resize img 32 32) = some p2 ∧
      pngEnc (resize img 48 48) = some p3 ∧
      pngEnc (resize img 64 64) = some p4 ∧
      pngEnc (resize img 128 128) = some p5 ∧
      pngEnc (resize img 256 256) = some p6 := by
  cases e1 : pngEnc (resize img 16 16) with
  | none => simp [ico_sizes, buildIcoPayloads, e1] at h
  | some p1 =>
  cases e2 : pngEnc (resize img 32 32) with
  | none => simp [ico_sizes, buildIcoPayloads, e1, e2] at h
  | some p2 =>
  cases e3 : pngEnc (resize img 48 48) with
  | none => simp [ico_sizes, buildIcoPayloads, e1, e2, e3] at h
  | some p3 =>
  cases e4 : pngEnc (resize img 64 64) with
  | none => simp [ico_sizes, buildIcoPayloads, e1, e2, e3, e4] at h
  | some p4 =>
  cases e5 : pngEnc (resize img 128 128) with
  | none => simp [ico_sizes, buildIcoPayloads, e1, e2, e3, e4, e5] at h
  | some p5 =>
  cases e6 : pngEnc (resize img 256 256) with
  | none => simp [ico_sizes, buildIcoPayloads, e1, e2, e3, e4, e5, e6] at h
  | some p6 =>
    refine ⟨p1, p2, p3, p4, p5, p6, ?_, rfl, rfl, rfl, rfl, rfl, rfl⟩
    simp [ico_sizes, buildIcoPayloads, e1, e2, e3, e4, e5, e6] at h
    exact h.symm

theorem parseIcoEntry_icoDirEntry (s r o : Nat) (hs : s ∈ ico_sizes)
    (hr : r < 2 ^ 32) (ho : o < 2 ^ 32) :
    parseIcoEntry (icoDirEntry s r o) = some ⟨s, s, r, o⟩ := by
  fin_cases hs <;>
    (simp [icoDirEntry, le16, le32, parseIcoEntry, decLE32]; omega)

theorem drop_take_concat {pre mid post : List Nat} {k n : Nat}
    (hk : pre.length = k) (hn : mid.length = n) :
    ((pre ++ (mid ++ post)).drop k).take n = mid := by
  rw [List.drop_left' hk, List.take_left' hn]

theorem drop_take_at (pre mid post : List Nat) {bytes : List Nat} {k n : Nat}
    (hb : bytes = pre ++ (mid ++ post)) (hk : pre.length = k)
    (hn : mid.length = n) : (bytes.drop k).take n = mid := by
  rw [hb]
  exact drop_take_concat hk hn

/-- C7: Decoding an ICO file produced by `create_ico_file` with a standard
reader yields N images whose (width, height) pairs exactly match the
requested ordered size list 16, 32, 48, 64, 128, 256, with the directory
entry for the 256-pixel image using the 0-means-256 width/height encoding
(its stored width and height bytes are 0), and with the first requested
size as the first (primary) entry.  The byte serialization inside Pillow is
modelled from the spec (section 4.3); the PNG codec is abstracted by the
dimension round-trip contract `hcodec`. -/
theorem C7_ico_roundtrip
    (pngEnc : Img → Option (List Nat)) (pngDec : List Nat → Option (Nat × Nat))
    (img : Img) (bytes : List Nat)
    (hcodec : ∀ i b, pngEnc i = some b → pngDec b = some (i.width, i.height))
    (henc : create_ico_file pngEnc (some img) = some bytes)
    (hsize : bytes.length < 2 ^ 32) :
    decode_ico pngDec bytes
      = some [((16, 16), some (16, 16)), ((32, 32), some (32, 32)),
        ((48, 48), some (48, 48)), ((64, 64), some (64, 64)),
        ((128, 128), some (128, 128)), ((256, 256), some (256, 256))] ∧
    (bytes.drop 86).take 2 = [0, 0] := by
  cases hps : buildIcoPayloads pngEnc img ico_sizes with
  | none => simp [create_ico_file, hps] at henc
  | some ps =>
    obtain ⟨p1, p2, p3, p4, p5, p6, hpeq, e1, e2, e3, e4, e5, e6⟩ :=
      buildIcoPayloads_some_parts hps
    subst hpeq
    simp only [create_ico_file, hps] at henc
    have hbytes : bytes = ([0, 0, 1, 0, 6, 0] : List Nat) ++ ((icoDirEntry 16 p1.length 102) ++ ((icoDirEntry 32 p2.length (102 + p1.length)) ++ ((icoDirEntry 48 p3.length (102 + p1.length + p2.length)) ++ ((icoDirEntry 64 p4.length (102 + p1.length + p2.length + p3.length)) ++ ((icoDirEntry 128 p5.length (102 + p1.length + p2.length + p3.length + p4.length)) ++ ((icoDirEntry 256 p6.length (102 + p1.length + p2.length + p3.length + p4.length + p5.length)) ++ (p1 ++ (p2 ++ (p3 ++ (p4 ++ (p5 ++ p6))))))))))) := by
      rw [← Option.some.inj henc]
      simp [ico_sizes, le16, icoDirectory, runningTotals, List.append_assoc]
    have hlen : bytes.length = 102 + p1.length + p2.length + p3.length
        + p4.length + p5.length + p6.length := by
      rw [hbytes]
      simp [icoDirEntry_length]
      omega
    have hs1 : (bytes.drop 6).take 16 = icoDirEntry 16 p1.length 102 := by
      refine drop_take_at (([0, 0, 1, 0, 6, 0] : List Nat)) (icoDirEntry 16 p1.length 102) (((icoDirEntry 32 p2.length (102 + p1.length)) ++ ((icoDirEntry 48 p3.length (102 + p1.length + p2.length)) ++ ((icoDirEntry 64 p4.length (102 + p1.length + p2.length + p3.length)) ++ ((icoDirEntry 128 p5.length (102 + p1.length + p2.length + p3.length + p4.length)) ++ ((icoDirEntry 256 p6.length (102 + p1.length + p2.length + p3.length + p4.length + p5.length)) ++ (p1 ++ (p2 ++ (p3 ++ (p4 ++ (p5 ++ p6))))))))))) ?_ ?_ (icoDirEntry_length _ _ _)
      · rw [hbytes]
        try simp [List.append_assoc]
      · simp [icoDirEntry_length] <;> omega
    have hs2 : (bytes.drop 22).take 16 = icoDirEntry 32 p2.length (102 + p1.length) := by
      refine drop_take_at (([0, 0, 1, 0, 6, 0] : List Nat) ++ (icoDirEntry 16 p1.length 102)) (icoDirEntry 32 p2.length (102 + p1.length)) (((icoDirEntry 48 p3.length (102 + p1.length + p2.length)) ++ ((icoDirEntry 64 p4.length (102 + p1.length + p2.length + p3.length)) ++ ((icoDirEntry 128 p5.length (102 + p1.length + p2.length + p3.length + p4.length)) ++ ((icoDirEntry 256 p6.length (102 + p1.length + p2.length + p3.length + p4.length + p5.length)) ++ (p1 ++ (p2 ++ (p3 ++ (p4 ++ (p5 ++ p6)))))))))) ?_ ?_ (icoDirEntry_length _ _ _)
      · rw [hbytes]
        try simp [List.append_assoc]
      · simp [icoDirEntry_length] <;> omega
    have hs3 : (bytes.drop 38).take 16 = icoDirEntry 48 p3.length (102 + p1.length + p2.length) := by
      refine drop_take_at (([0, 0, 1, 0, 6, 0] : List Nat) ++ (icoDirEntry 16 p1.length 102) ++ (icoDirEntry 32 p2.length (102 + p1.length))) (icoDirEntry 48 p3.length (102 + p1.length + p2.length)) (((icoDirEntry 64 p4.length (102 + p1.length + p2.length + p3.length)) ++ ((icoDirEntry 128 p5.length (102 + p1.length + p2.length + p3.length + p4.length)) ++ ((icoDirEntry 256 p6.length (102 + p1.length + p2.length + p3.length + p4.length + p5.length)) ++ (p1 ++ (p2 ++ (p3 ++ (p4 ++ (p5 ++ p6))))))))) ?_ ?_ (icoDirEntry_length _ _ _)
      · rw [hbytes]
        try simp [List.append_assoc]
      · simp [icoDirEntry_length] <;> omega
    have hs4 : (bytes.drop 54).take 16 = icoDirEntry 64 p4.length (102 + p1.length + p2.length + p3.length) := by
      refine drop_take_at (([0, 0, 1, 0, 6, 0] : List Nat) ++ (icoDirEntry 16 p1.length 102) ++ (icoDirEntry 32 p2.length (102 + p1.length)) ++ (icoDirEntry 48 p3.length (102 + p1.length + p2.length))) (icoDirEntry 64 p4.length (102 + p1.length + p2.length + p3.length)) (((icoDirEntry 128 p5.length (102 + p1.length + p2.length + p3.length + p4.length)) ++ ((icoDirEntry 256 p6.length (102 + p1.length + p2.length + p3.length + p4.length + p5.length)) ++ (p1 ++ (p2 ++ (p3 ++ (p4 ++ (p5 ++ p6)))))))) ?_ ?_ (icoDirEntry_length _ _ _)
      · rw [hbytes]
        try simp [List.append_assoc]
      · simp [icoDirEntry_length] <;> omega
    have hs5 : (bytes.drop 70).take 16 = icoDirEntry 128 p5.length (102 + p1.length + p2.length + p3.length + p4.length) := by
      refine drop_take_at (([0, 0, 1, 0, 6, 0] : List Nat) ++ (icoDirEntry 16 p1.length 102) ++ (icoDirEntry 32 p2.length (102 + p1.length)) ++ (icoDirEntry 48 p3.length (102 + p1.length + p2.length)) ++ (icoDirEntry 64 p4.length (102 + p1.length + p2.length + p3.length))) (icoDirEntry 128 p5.length (102 + p1.length + p2.length + p3.length + p4.length)) (((icoDirEntry 256 p6.length (102 + p1.length + p2.length + p3.length + p4.length + p5.length)) ++ (p1 ++ (p2 ++ (p3 ++ (p4 ++ (p5 ++ p6))))))) ?_ ?_ (icoDirEntry_length _ _ _)
      · rw [hbytes]
        try simp [List.append_assoc]
      · simp [icoDirEntry_length] <;> omega
    have hs6 : (bytes.drop 86).take 16 = icoDirEntry 256 p6.length (102 + p1.length + p2.length + p3.length + p4.length + p5.length) := by
      refine drop_take_at (([0, 0, 1, 0, 6, 0] : List Nat) ++ (icoDirEntry 16 p1.length 102) ++ (icoDirEntry 32 p2.length (102 + p1.length)) ++ (icoDirEntry 48 p3.length (102 + p1.length + p2.length)) ++ (icoDirEntry 64 p4.length (102 + p1.length + p2.length + p3.length)) ++ (icoDirEntry 128 p5.length (102 + p1.length + p2.length + p3.length + p4.length))) (icoDirEntry 256 p6.length (102 + p1.length + p2.length + p3.length + p4.length + p5.length)) ((p1 ++ (p2 ++ (p3 ++ (p4 ++ (p5 ++ p6)))))) ?_ ?_ (icoDirEntry_length _ _ _)
      · rw [hbytes]
        try simp [List.append_assoc]
      · simp [icoDirEntry_length] <;> omega
    have hq1 : parseIcoEntry ((bytes.drop 6).take 16)
        = some ⟨16, 16, p1.length, 102⟩ := by
      rw [hs1]
      exact parseIcoEntry_icoDirEntry _ _ _ (by simp [ico_sizes]) (by omega)
        (by omega)
    have hq2 : parseIcoEntry ((bytes.drop 22).take 16)
        = some ⟨32, 32, p2.length, (102 + p1.length)⟩ := by
      rw [hs2]
      exact parseIcoEntry_icoDirEntry _ _ _ (by simp [ico_sizes]) (by omega)
        (by omega)
    have hq3 : parseIcoEntry ((bytes.drop 38).take 16)
        = some ⟨48, 48, p3.length, (102 + p1.length + p2.length)⟩ := by
      rw [hs3]
      exact parseIcoEntry_icoDirEntry _ _ _ (by simp [ico_sizes]) (by omega)
        (by omega)
    have hq4 : parseIcoEntry ((bytes.drop 54).take 16)
        = some ⟨64, 64, p4.length, (102 + p1.length + p2.length + p3.length)⟩ := by
      rw [hs4]
      exact parseIcoEntry_icoDirEntry _ _ _ (by simp [ico_sizes]) (by omega)
        (by omega)
    have hq5 : parseIcoEntry ((bytes.drop 70).take 16)
        = some ⟨128, 128, p5.length, (102 + p1.length + p2.length + p3.length + p4.length)⟩ := by
      rw [hs5]
      exact parseIcoEntry_icoDirEntry _ _ _ (by simp [ico_sizes]) (by omega)
        (by omega)
    have hq6 : parseIcoEntry ((bytes.drop 86).take 16)
        = some ⟨256, 256, p6.length, (102 + p1.length + p2.length + p3.length + p4.length + p5.length)⟩ := by
      rw [hs6]
      exact parseIcoEntry_icoDirEntry _ _ _ (by simp [ico_sizes]) (by omega)
        (by omega)
    have hpay1 : (bytes.drop 102).take p1.length = p1 := by
      refine drop_take_at (([0, 0, 1, 0, 6, 0] : List Nat) ++ (icoDirEntry 16 p1.length 102) ++ (icoDirEntry 32 p2.length (102 + p1.length)) ++ (icoDirEntry 48 p3.length (102 + p1.length + p2.length)) ++ (icoDirEntry 64 p4.length (102 + p1.length + p2.length + p3.length)) ++ (icoDirEntry 128 p5.length (102 + p1.length + p2.length + p3.length + p4.length)) ++ (icoDirEntry 256 p6.length (102 + p1.length + p2.length + p3.length + p4.length + p5.length))) p1 ((p2 ++ (p3 ++ (p4 ++ (p5 ++ p6))))) ?_ ?_ rfl
      · rw [hbytes]
        try simp [List.append_assoc]
      · simp [icoDirEntry_length] <;> omega
    have hpay2 : (bytes.drop (102 + p1.length)).take p2.length = p2 := by
      refine drop_take_at (([0, 0, 1, 0, 6, 0] : List Nat) ++ (icoDirEntry 16 p1.length 102) ++ (icoDirEntry 32 p2.length (102 + p1.length)) ++ (icoDirEntry 48 p3.length (102 + p1.length + p2.length)) ++ (icoDirEntry 64 p4.length (102 + p1.length + p2.length + p3.length)) ++ (icoDirEntry 128 p5.length (102 + p1.length + p2.length + p3.length + p4.length)) ++ (icoDirEntry 256 p6.length (102 + p1.length + p2.length + p3.length + p4.length + p5.length)) ++ p1) p2 ((p3 ++ (p4 ++ (p5 ++ p6)))) ?_ ?_ rfl
      · rw [hbytes]
        try simp [List.append_assoc]
      · simp [icoDirEntry_length] <;> omega
    have hpay3 : (bytes.drop (102 + p1.length + p2.length)).take p3.length = p3 := by
      refine drop_take_at (([0, 0, 1, 0, 6, 0] : List Nat) ++ (icoDirEntry 16 p1.length 102) ++ (icoDirEntry 32 p2.length (102 + p1.length)) ++ (icoDirEntry 48 p3.length (102 + p1.length + p2.length)) ++ (icoDirEntry 64 p4.length (102 + p1.length + p2.length + p3.length)) ++ (icoDirEntry 128 p5.length (102 + p1.length + p2.length + p3.length + p4.length)) ++ (icoDirEntry 256 p6.length (102 + p1.length + p2.length + p3.length + p4.length + p5.length)) ++ p1 ++ p2) p3 ((p4 ++ (p5 ++ p6))) ?_ ?_ rfl
      · rw [hbytes]
        try simp [List.append_assoc]
      · simp [icoDirEntry_length] <;> omega
    have hpay4 : (bytes.drop (102 + p1.length + p2.length + p3.length)).take p4.length = p4 := by
      refine drop_take_at (([0, 0, 1, 0, 6, 0] : List Nat) ++ (icoDirEntry 16 p1.length 102) ++ (icoDirEntry 32 p2.length (102 + p1.length)) ++ (icoDirEntry 48 p3.length (102 + p1.length + p2.length)) ++ (icoDirEntry 64 p4.length (102 + p1.length + p2.length + p3.length)) ++ (icoDirEntry 128 p5.length (102 + p1.length + p2.length + p3.length + p4.length)) ++ (icoDirEntry 256 p6.length (102 + p1.length + p2.length + p3.length + p4.length + p5.length)) ++ p1 ++ p2 ++ p3) p4 ((p5 ++ p6)) ?_ ?_ rfl
      · rw [hbytes]
        try simp [List.append_assoc]
      · simp [icoDirEntry_length] <;> omega
    have hpay5 : (bytes.drop (102 + p1.length + p2.length + p3.length + p4.length)).take p5.length = p5 := by
      refine drop_take_at (([0, 0, 1, 0, 6, 0] : List Nat) ++ (icoDirEntry 16 p1.length 102) ++ (icoDirEntry 32 p2.length (102 + p1.length)) ++ (icoDirEntry 48 p3.length (102 + p1.length + p2.length)) ++ (icoDirEntry 64 p4.length (102 + p1.length + p2.length + p3.length)) ++ (icoDirEntry 128 p5.length (102 + p1.length + p2.length + p3.length + p4.length)) ++ (icoDirEntry 256 p6.length (102 + p1.length + p2.length + p3.length + p4.length + p5.length)) ++ p1 ++ p2 ++ p3 ++ p4) p5 (p6) ?_ ?_ rfl
      · rw [hbytes]
        try simp [List.append_assoc]
      · simp [icoDirEntry_length] <;> omega
    have hpay6 : (bytes.drop (102 + p1.length + p2.length + p3.length + p4.length + p5.length)).take p6.length = p6 := by
      refine drop_take_at (([0, 0, 1, 0, 6, 0] : List Nat) ++ (icoDirEntry 16 p1.length 102) ++ (icoDirEntry 32 p2.length (102 + p1.length)) ++ (icoDirEntry 48 p3.length (102 + p1.length + p2.length)) ++ (icoDirEntry 64 p4.length (102 + p1.length + p2.length + p3.length)) ++ (icoDirEntry 128 p5.length (102 + p1.length + p2.length + p3.length + p4.length)) ++ (icoDirEntry 256 p6.length (102 + p1.length + p2.length + p3.length + p4.length + p5.length)) ++ p1 ++ p2 ++ p3 ++ p4 ++ p5) p6 (([] : List Nat)) ?_ ?_ rfl
      · rw [hbytes]
        try simp [List.append_assoc]
      · simp [icoDirEntry_length] <;> omega
    have hc1 : pngDec p1 = some (16, 16) := hcodec _ _ e1
    have hc2 : pngDec p2 = some (32, 32) := hcodec _ _ e2
    have hc3 : pngDec p3 = some (48, 48) := hcodec _ _ e3
    have hc4 : pngDec p4 = some (64, 64) := hcodec _ _ e4
    have hc5 : pngDec p5 = some (128, 128) := hcodec _ _ e5
    have hc6 : pngDec p6 = some (256, 256) := hcodec _ _ e6
    have ht6 : bytes.take 6 = [0, 0, 1, 0, 6, 0] := by
      rw [hbytes]
      exact List.take_left' rfl
    have hdec : decode_ico pngDec bytes
        = decodeIcoEntries pngDec bytes [0, 1, 2, 3, 4, 5] := by
      unfold decode_ico
      rw [ht6]
      rfl
    refine ⟨?_, ?_⟩
    · rw [hdec]
      simp only [decodeIcoEntries]
      simp [hq1, hq2, hq3, hq4, hq5, hq6, hpay1, hpay2, hpay3, hpay4, hpay5,
        hpay6, hc1, hc2, hc3, hc4, hc5, hc6]
    · have h2 : ((bytes.drop 86).take 16).take 2
          = (icoDirEntry 256 p6.length (102 + p1.length + p2.length
            + p3.length + p4.length + p5.length)).take 2 := by
        rw [hs6]
      rw [List.take_take] at h2
      simpa [icoDirEntry] using h2

set_option maxRecDepth 8000 in
/-- Witness for C7: the model codec and the concrete test image satisfy the
hypotheses, and the theorem applies to the concrete 150-byte output. -/
theorem C7_witness :
    decode_ico pngDecodeModel icoTestBytes
      = some [((16, 16), some (16, 16)), ((32, 32), some (32, 32)),
        ((48, 48), some (48, 48)), ((64, 64), some (64, 64)),
        ((128, 128), some (128, 128)), ((256, 256), some (256, 256))] ∧
    (icoTestBytes.drop 86).take 2 = [0, 0] :=
  C7_ico_roundtrip pngEncodeModel pngDecodeModel testImg icoTestBytes
    (fun _ _ h => pngDecodeModel_pngEncodeModel h) (by decide) (by decide)
